import Mathlib

/-!
Verification of pyrcmemcached (src/pyrcmemcached.py): a key-value store
client tunnelled over an IRC-shaped line protocol.  The development is a
shallow embedding of the program: Python strings are modelled through their
`List Char` view with hand-rolled structural analogues of the `str` methods
the source uses, Python exceptions become explicit `Except` error values,
and the socket is abstracted to a script of receive outcomes (for the
byte-level read loop) or a list of incoming parsed messages (for the
handshake and store layers, which only ever consume whole messages).
-/

namespace Pyrcmemcached

/-! ### Python string primitives

The source uses `str.split` with one- and two-character separators, with and
without `maxsplit=1`.  Python's split with an explicit separator scans
non-overlapping occurrences left to right and keeps empty pieces; these
structural recursions reproduce that behaviour exactly. -/

/-- Python `s.split(sep)` for a one-character separator: `"a  b".split(" ")`
is `["a", "", "b"]`. -/
def splitChar (sep : Char) : List Char → List (List Char)
  | [] => [[]]
  | c :: rest =>
    match splitChar sep rest with
    | [] => [[]]
    | t :: ts => if c = sep then [] :: t :: ts else (c :: t) :: ts

/-- Python `s.split(sep)` for a two-character separator (the source uses
`" :"` and `"\r\n"`): non-overlapping occurrences, scanned left to right,
empty pieces kept. -/
def splitTwo (a b : Char) : List Char → List (List Char)
  | [] => [[]]
  | [c] => [[c]]
  | c1 :: c2 :: rest =>
    if c1 = a ∧ c2 = b then [] :: splitTwo a b rest
    else
      match splitTwo a b (c2 :: rest) with
      | [] => [[c1]]
      | t :: ts => (c1 :: t) :: ts

/-- Rejoin split pieces with a one-character separator; used to model
`maxsplit=1`. -/
def intercalateChar (sep : Char) : List (List Char) → List Char
  | [] => []
  | [x] => x
  | x :: xs => x ++ sep :: intercalateChar sep xs

/-- Python `s.split(sep, 1)` for a one-character separator: at most one
split, at the first occurrence; one piece when the separator is absent. -/
def splitFirstChar (sep : Char) (l : List Char) : List (List Char) :=
  match splitChar sep l with
  | [] => []
  | [x] => [x]
  | x :: rest => [x, intercalateChar sep rest]

/-- Python `sep in s` for a two-character separator, stated through the very
split the source performs next: the separator occurs iff splitting on it
yields more than one piece. -/
def containsTwo (a b : Char) (l : List Char) : Bool :=
  (splitTwo a b l).length != 1

/-- Python `s.endswith("\r\n")`. -/
def endsWithCRLF (l : List Char) : Bool :=
  ['\r', '\n'].isSuffixOf l

/-- Python `s.startswith(c)` for a one-character pattern. -/
def startsWithChar (c : Char) : List Char → Bool
  | [] => false
  | c0 :: _ => c0 = c

/-! ### Errors

Python exceptions are modelled as explicit error values, one constructor per
raise site in the source. -/

/-- Failure modes of the embedded program.  `assertCrlf` is the
`assert s.endswith(CRLF)` opening `parse_message`; `valueError` covers the
failing tuple unpacks (a split that did not produce exactly the number of
targets) and a failing `int()`; `malformedMessage` is the IndexError raised
when no command token remains in `parse_message` — the failure the spec's
taxonomy names MalformedMessage; `indexError` covers the other out-of-range
subscripts; `connectionClosed` is ConnectionClosed on a zero-length recv;
`noMessage` is NoMessageException; `stuck` is a model artefact marking a
receive script too short to decide the loop (the real code would stay
blocked on the socket); `unsupportedServer` is the
`Exception('Server does not support METADATA.')`; `assertionError` is a
failed `assert` on a reply; `memcachedKeyCharacterError` is
`Client.MemcachedKeyCharacterError` (the spec's InvalidKey); `nameError` is
Python's NameError for a bare name that is not in scope. -/
inductive Err
  | assertCrlf
  | valueError
  | malformedMessage
  | indexError
  | connectionClosed
  | noMessage
  | stuck
  | unsupportedServer
  | assertionError
  | memcachedKeyCharacterError
  | nameError
  deriving DecidableEq, Repr

/-! ### Message and parse_message (lines 20-51) -/

/-- The `Message` namedtuple `tags prefix command params`.  The second field
is the RFC 1459 source marker, called "prefix" in the source; it is renamed
`pfx` here. -/
structure Message where
  tags : List String
  pfx : Option String
  command : String
  params : List String
  deriving DecidableEq, Repr

/-- Lines 33-34: `if s.startswith('@'): (tags, s) = s.split(' ', 1)`.  The
split with `maxsplit=1` yields a single piece when the line holds no space,
and unpacking that into two targets raises ValueError. -/
def stripTags (l : List Char) : Except Err (List Char) :=
  if startsWithChar '@' l then
    match splitFirstChar ' ' l with
    | [_tags, rest] => .ok rest
    | _ => .error .valueError
  else .ok l

/-- Lines 35-39: the trailing-parameter split.  The source calls
`s.split(' :')` with no maxsplit, so the two-target unpack demands exactly
one occurrence of `" :"`; with none the whole remainder is split on spaces,
and in either branch `filter(bool, ...)` drops empty tokens — but the
trailing piece is appended afterwards, unfiltered. -/
def tokenize (l : List Char) : Except Err (List (List Char)) :=
  if containsTwo ' ' ':' l then
    match splitTwo ' ' ':' l with
    | [other, trailing] =>
      .ok ((splitChar ' ' other).filter (fun t => !t.isEmpty) ++ [trailing])
    | _ => .error .valueError
  else .ok ((splitChar ' ' l).filter (fun t => !t.isEmpty))

/-- Lines 40-44: pop the source-marker token if the first token starts with
a colon, then pop the command.  `tokens[0]` on an empty list and
`tokens.pop(0)` on an exhausted list raise IndexError — the
"no command token remains" failure. -/
def extractSourceCmd (toks : List (List Char)) :
    Except Err (Option (List Char) × List Char × List (List Char)) :=
  match toks with
  | [] => .error .malformedMessage
  | t0 :: rest =>
    if startsWithChar ':' t0 then
      match rest with
      | [] => .error .malformedMessage
      | cmd :: params => .ok (some (t0.drop 1), cmd, params)
    else .ok (none, t0, rest)

/-- `parse_message` (lines 26-51): assert the CRLF terminator, strip it,
consume a tag segment, split off a trailing parameter, extract the source
marker and the command.  Line 47 returns `tags=[]` unconditionally. -/
def parse_message (s : String) : Except Err Message := do
  if endsWithCRLF s.toList then
    let body ← stripTags (s.toList.dropLast.dropLast)
    let toks ← tokenize body
    let (pfx, cmd, params) ← extractSourceCmd toks
    pure ⟨[], pfx.map String.mk, String.mk cmd, params.map String.mk⟩
  else throw Err.assertCrlf

/-! ### Key validation (lines 15-17) -/

/-- `isvalidkey`: every character of the key drawn from the allowed
alphabet. -/
def isvalidkey (key : String) : Bool :=
  key.toList.all (fun c =>
    c ∈ "abcdefghijklmnopqrstuvwxyzABCDEFGHIJKLMNOPQRSTUVWXYZ0123456789_.:".toList)

/-! ### Connection reads (IrcClient.getMessages / getMessage, lines 71-111)

The socket is abstracted to a script of receive outcomes consumed in
order. -/

/-- One `conn.recv(4096)` outcome: the socket either timed out or delivered
`data`; an empty `data` models the zero-length read of a peer that closed
the connection. -/
inductive RecvEvent
  | timeout
  | bytes (data : String)
  deriving DecidableEq, Repr

/-- The receive loop of `IrcClient.getMessages` (lines 75-95).  `none`
models the early `return []` (timeout, nothing buffered, non-blocking);
`some data` is the buffer handed to the parsing phase after `break`.  The
loop keeps reading only while chunks arrive that do not yet end in CRLF. -/
def recvLoop (assertGetOne : Bool) (events : List RecvEvent) (data : String) :
    Except Err (Option String) :=
  match events with
  | [] => .error .stuck
  | .timeout :: _ =>
    if ¬ assertGetOne ∧ data = "" then .ok none
    else .ok (some data)
  | .bytes nd :: rest =>
    if nd = "" then .error .connectionClosed
    else
      let data := data ++ nd
      if endsWithCRLF nd.toList then .ok (some data)
      else recvLoop assertGetOne rest data

/-- Lines 96-101: split the buffer on CRLF and parse each non-empty line,
re-appending the CRLF terminator that `parse_message` asserts on.  A parse
failure propagates out of `getMessages`, as the Python exception would. -/
def parseLines : List (List Char) → Except Err (List Message)
  | [] => .ok []
  | l :: ls =>
    if l = [] then parseLines ls
    else do
      let m ← parse_message (String.mk (l ++ ['\r', '\n']))
      let ms ← parseLines ls
      pure (m :: ms)

/-- `IrcClient.getMessages` (lines 71-102) over a receive script. -/
def getMessages (assertGetOne : Bool) (events : List RecvEvent) :
    Except Err (List Message) := do
  match ← recvLoop assertGetOne events "" with
  | none => pure []
  | some data => parseLines (splitTwo '\r' '\n' data.toList)

/-- `IrcClient.getMessage` (lines 103-111) with no filter predicate — every
call in this program passes none, so the loop returns the first message it
pops.  When the inbox is empty it is refilled with
`getMessages(assert_get_one=True)`; if the refill comes back empty,
NoMessageException is raised.  Returns the popped message and the inbox that
remains. -/
def getMessage (inbuffer : List Message) (events : List RecvEvent) :
    Except Err (Message × List Message) :=
  match inbuffer with
  | m :: rest => .ok (m, rest)
  | [] => do
    match ← getMessages true events with
    | [] => .error .noMessage
    | m :: rest => .ok (m, rest)

/-! ### Handshake (IrcClient.authenticate / join, lines 123-154)

These methods only ever consume whole parsed messages through
`self.getMessage()`, so they are modelled over the stream of incoming
messages; an exhausted stream raises NoMessageException, as the underlying
`getMessage` would.  The lines they send (CAP LS, USER, NICK, CAP END,
PING, JOIN) do not influence their control flow and are not tracked. -/

/-- Pop the next incoming server message. -/
def nextMsg : List Message → Except Err (Message × List Message)
  | [] => .error .noMessage
  | m :: rest => .ok (m, rest)

/-- Python `l[i]`: IndexError when out of range. -/
def pyIndex (l : List α) (i : Nat) : Except Err α :=
  match l.get? i with
  | some x => .ok x
  | none => .error .indexError

/-- The capability loop of `authenticate` (lines 128-137): skip any message
that is not a `CAP ... LS` reply; a `*` in params[2] marks a continuation
chunk carried in params[3]; otherwise params[2] carries the final chunk and
the loop ends.  Indexing a too-short params list raises IndexError, reached
only when the command is already `CAP` (Python's short-circuit `or`). -/
def capLoop : List Message → List String →
    Except Err (List String × Message × List Message)
  | [], _ => .error .noMessage
  | m :: rest, caps =>
    if m.command ≠ "CAP" then capLoop rest caps
    else do
      let p1 ← pyIndex m.params 1
      if p1 ≠ "LS" then capLoop rest caps
      else do
        let p2 ← pyIndex m.params 2
        if p2 = "*" then do
          let p3 ← pyIndex m.params 3
          capLoop rest (caps ++ (splitChar ' ' p3.toList).map String.mk)
        else .ok (caps ++ (splitChar ' ' p2.toList).map String.mk, m, rest)

/-- The body of the `while m.command != cmd: m = self.getMessage()` loops in
`authenticate` (lines 139-140 and 145-146): read until the wanted command
appears. -/
def waitForRead (cmd : String) : List Message → Except Err (Message × List Message)
  | [] => .error .noMessage
  | m :: rest => if m.command = cmd then .ok (m, rest) else waitForRead cmd rest

/-- The full wait loop: the current message is tested before any read. -/
def waitFor (cmd : String) (m : Message) (st : List Message) :
    Except Err (Message × List Message) :=
  if m.command = cmd then .ok (m, st) else waitForRead cmd st

/-- `IrcClient.authenticate` (lines 123-146): collect the capability list,
wait for the 005 ISUPPORT numeric, require a `METADATA` feature among
`m.params[1:-1]` (each feature name taken before its `=`), then wait for the
PONG.  Returns the unread remainder of the incoming stream. -/
def authenticate (st : List Message) : Except Err (List Message) := do
  let (_capabilities, m, st) ← capLoop st []
  let (m, st) ← waitFor "005" m st
  let names := ((m.params.drop 1).dropLast).map
    (fun x => String.mk ((splitChar '=' x.toList).headD []))
  if "METADATA" ∈ names then do
    let (_pong, st) ← waitFor "PONG" m st
    pure st
  else .error .unsupportedServer

/-- The `while m.command == 'NOTICE'` skip of `join` (lines 151-152),
reading part. -/
def skipNoticesRead : List Message → Except Err (Message × List Message)
  | [] => .error .noMessage
  | m :: rest => if m.command = "NOTICE" then skipNoticesRead rest else .ok (m, rest)

/-- The NOTICE skip including the test of the current message. -/
def skipNotices (m : Message) (st : List Message) :
    Except Err (Message × List Message) :=
  if m.command = "NOTICE" then skipNoticesRead st else .ok (m, st)

/-- `IrcClient.join` (lines 148-154): read the first reply to the JOIN,
skip NOTICEs, then `assert m.command != '366'` — numeric 366
(RPL_ENDOFNAMES) as the first non-NOTICE reply fails the join.  The final
non-blocking `self.getMessages()` drain does not affect the outcome. -/
def join (st : List Message) : Except Err Unit := do
  let (m, st) ← nextMsg st
  let (m, _rest) ← skipNotices m st
  if m.command = "366" then throw Err.assertionError
  else pure ()

/-- The handshake driven by `Client._connect` (lines 172-173):
`authenticate` then `join`; returning `ok` is the Ready state of the
spec. -/
def handshake (st : List Message) : Except Err Unit := do
  let st ← authenticate st
  join st

/-! ### Store (Client.set / Client.get, lines 157-218) -/

/-- The value universe the store handles: Python bool, int and str. -/
inductive PyValue
  | bool (b : Bool)
  | int (n : Int)
  | str (s : String)
  deriving DecidableEq, Repr

/-- Python `isinstance(v, bool)` over the embedded value universe. -/
def isinstance_bool : PyValue → Bool
  | .bool _ => true
  | _ => false

/-- Python `isinstance(v, int)`: in Python `bool` is a subclass of `int`, so
booleans satisfy this test too — which is why `Client.set` must test `bool`
first. -/
def isinstance_int : PyValue → Bool
  | .bool _ => true
  | .int _ => true
  | _ => false

/-- Python `'{}'.format(v)` on these values: `True`/`False` for booleans,
decimal for integers, the string itself otherwise. -/
def pyStr : PyValue → String
  | .bool true => "True"
  | .bool false => "False"
  | .int n => toString n
  | .str s => s

/-- Python `bool(s)` on a string: its truthiness, i.e. non-emptiness. -/
def pyBool (s : List Char) : Bool :=
  !s.isEmpty

/-- One decimal digit's value. -/
def digitVal (c : Char) : Option Nat :=
  if '0' ≤ c ∧ c ≤ '9' then some (c.toNat - '0'.toNat) else none

/-- Accumulate the value of a digit run; `none` on a non-digit. -/
def digitsValAux : List Char → Nat → Option Nat
  | [], acc => some acc
  | c :: r, acc =>
    match digitVal c with
    | some d => digitsValAux r (acc * 10 + d)
    | none => none

/-- Python `int(s)` on an optionally minus-signed non-empty run of decimal
digits; anything else raises ValueError.  (Python additionally tolerates
surrounding whitespace, a plus sign and underscores; no value this program
ever decodes takes those shapes.) -/
def pyInt (s : String) : Except Err Int :=
  match s.toList with
  | [] => .error .valueError
  | '-' :: rest =>
    if rest = [] then .error .valueError
    else
      match digitsValAux rest 0 with
      | some n => .ok (-(n : Int))
      | none => .error .valueError
  | l =>
    match digitsValAux l 0 with
    | some n => .ok (n : Int)
    | none => .error .valueError

/-- `Client.channel`. -/
def channel : String := "#foo"

/-- Lines 184-189 of `Client.set`: the wire type tag,
`isinstance(value, bool)` tested before `isinstance(value, int)`. -/
def setTypeTag (v : PyValue) : String :=
  if isinstance_bool v then "bool"
  else if isinstance_int v then "int"
  else "str"

/-- The `{type}:{value}` payload `Client.set` places after the trailing
marker (line 190). -/
def setPayload (v : PyValue) : String :=
  setTypeTag v ++ ":" ++ pyStr v

/-- `Client.set` (lines 181-199) with the connection abstracted: the result
pairs the lines sent on the socket with the outcome of checking the scripted
replies — a `761` (RPL_KEYVALUE) then a `762` (RPL_METADATAEND), each read
through `getMessage` and checked by `assert`. -/
def Client.set (key : String) (v : PyValue) (replies : List Message) :
    List String × Except Err Unit :=
  if ¬ isvalidkey key then ([], .error .memcachedKeyCharacterError)
  else
    (["METADATA " ++ channel ++ " SET " ++ key ++ " :" ++ setPayload v],
     do
       let (m, rest) ← nextMsg replies
       if m.command = "761" then do
         let (m2, _rest2) ← nextMsg rest
         if m2.command = "762" then pure ()
         else throw Err.assertionError
       else throw Err.assertionError)

/-- `Client.get` (lines 201-218) with the connection abstracted as in
`Client.set`.  Line 203 raises the bare name `MemcachedKeyCharacterError`;
that class is an attribute of `Client` and Python class attributes are not
in scope inside method bodies, so the raise itself fails with NameError.  A
`766` reply returns the explicit absent result; otherwise the reply must be
a `761` echoing the requested key, whose params[3] payload is split on its
first colon into a type tag and the raw value, decoded per the tag. -/
def Client.get (key : String) (replies : List Message) :
    List String × Except Err (Option PyValue) :=
  if ¬ isvalidkey key then ([], .error .nameError)
  else
    (["METADATA " ++ channel ++ " GET " ++ key],
     do
       let (m, _rest) ← nextMsg replies
       if m.command = "766" then pure none
       else if m.command = "761" then do
         let p1 ← pyIndex m.params 1
         if p1 = key then do
           let payload ← pyIndex m.params 3
           match splitFirstChar ':' payload.toList with
           | [t, v] =>
             if String.mk t = "bool" then pure (some (.bool (pyBool v)))
             else if String.mk t = "int" then do
               let n ← pyInt (String.mk v)
               pure (some (.int n))
             else pure (some (.str (String.mk v)))
           | _ => throw Err.valueError
         else throw Err.assertionError
       else throw Err.assertionError)

/-- One set/get round trip against a server that echoes back exactly the
payload `Client.set` sent: the `761` reply carries the requested key in
params[1] and the stored `tag:value` payload in params[3], the two positions
`Client.get` reads. -/
def roundTrip (key : String) (v : PyValue) :
    List String × Except Err (Option PyValue) :=
  Client.get key [⟨[], some "server", "761", ["nick", key, "*", setPayload v]⟩]

/-- The C3 scenario script: the server advertises the capability list
`metadata-2`, sends an 005 ISUPPORT naming `METADATA=1`, answers the PING,
and sends numeric 366 as the reply to the JOIN. -/
def c3Script : List Message :=
  [⟨[], none, "CAP", ["*", "LS", "metadata-2"]⟩,
   ⟨[], some "server", "005", ["nick", "METADATA=1", "are supported by this server"]⟩,
   ⟨[], some "server", "PONG", []⟩,
   ⟨[], some "server", "366", ["nick", "#foo", "End of /NAMES list."]⟩]

/-! ### Helper lemmas -/

/-- Every token that survives the `filter(bool, ...)` of `tokenize` is
non-empty. -/
theorem ne_nil_of_mem_filter {l : List (List Char)} {t : List Char}
    (h : t ∈ l.filter (fun x => !x.isEmpty)) : t ≠ [] := by
  intro hnil
  subst hnil
  have hp := List.of_mem_filter h
  simp at hp

/-- Inversion for `extractSourceCmd`: on success the token list is the
command followed by the params, possibly preceded by one source-marker
token. -/
theorem extractSourceCmd_ok_shape {toks : List (List Char)}
    {pfx : Option (List Char)} {cmd : List Char} {params : List (List Char)}
    (hex : extractSourceCmd toks = .ok (pfx, cmd, params)) :
    toks = cmd :: params ∨ ∃ p0, toks = p0 :: cmd :: params := by
  unfold extractSourceCmd at hex
  split at hex
  · exact absurd hex (by simp)
  · split at hex
    · split at hex
      · exact absurd hex (by simp)
      · injection hex with h
        injection h with h1 h23
        injection h23 with h2 h3
        subst h2; subst h3
        exact Or.inr ⟨_, rfl⟩
    · injection hex with h
      injection h with h1 h23
      injection h23 with h2 h3
      subst h2; subst h3
      exact Or.inl rfl

/-- Inversion for `tokenize`: on success the tokens are a space-split with
empties filtered, either of the whole remainder or of the part before the
one `" :"` occurrence with the unfiltered trailing piece appended. -/
theorem tokenize_ok_shape {body : List Char} {toks : List (List Char)}
    (htk : tokenize body = .ok toks) :
    (∃ w, toks = (splitChar ' ' w).filter (fun t => !t.isEmpty)) ∨
    (∃ other trailing,
      toks = (splitChar ' ' other).filter (fun t => !t.isEmpty) ++ [trailing]) := by
  unfold tokenize at htk
  split at htk
  · split at htk
    · injection htk with h
      exact Or.inr ⟨_, _, h.symm⟩
    · exact absurd htk (by simp)
  · injection htk with h
    exact Or.inl ⟨body, h.symm⟩

/-- Monadic bind on `Except` applied to a success, reduced. -/
theorem except_bind_ok (a : α) (f : α → Except Err β) :
    ((Except.ok a : Except Err α) >>= f) = f a := rfl

/-- Monadic bind on `Except` applied to a failure, reduced. -/
theorem except_bind_error (e : Err) (f : α → Except Err β) :
    ((Except.error e : Except Err α) >>= f) = Except.error e := rfl

/-- Functorial map on `Except` applied to a success, reduced. -/
theorem except_map_ok (f : α → β) (a : α) :
    (f <$> (Except.ok a : Except Err α)) = Except.ok (f a) := rfl

/-- Functorial map on `Except` applied to a failure, reduced. -/
theorem except_map_error (f : α → β) (e : Err) :
    (f <$> (Except.error e : Except Err α)) = Except.error e := rfl

/-- Inversion for a successful `parse_message`: the pipeline stages all
succeeded and the message's command and params are the image of the
extracted tokens. -/
theorem parse_message_ok_pieces {s : String} {m : Message}
    (h : parse_message s = .ok m) :
    ∃ body toks pfx cmd params,
      stripTags (s.toList.dropLast.dropLast) = .ok body ∧
      tokenize body = .ok toks ∧
      extractSourceCmd toks = .ok (pfx, cmd, params) ∧
      m.command = String.mk cmd ∧ m.params = params.map String.mk := by
  unfold parse_message at h
  split at h
  · cases hst : stripTags (s.toList.dropLast.dropLast) with
    | error e =>
      rw [hst] at h
      simp only [except_bind_error] at h
      exact absurd h (by simp)
    | ok body =>
      rw [hst] at h
      simp only [except_bind_ok] at h
      cases htk : tokenize body with
      | error e =>
        rw [htk] at h
        simp only [except_bind_error] at h
        exact absurd h (by simp)
      | ok toks =>
        rw [htk] at h
        simp only [except_bind_ok] at h
        cases hex : extractSourceCmd toks with
        | error e =>
          rw [hex] at h
          simp only [except_bind_error, except_map_error] at h
          exact absurd h (by simp)
        | ok triple =>
          obtain ⟨pfx, cmd, params⟩ := triple
          rw [hex] at h
          simp only [except_bind_ok, except_map_ok, pure, Except.pure] at h
          injection h with h
          subst h
          exact ⟨body, toks, pfx, cmd, params, rfl, htk, hex, rfl, rfl⟩
  · simp [throw, throwThe, MonadExceptOf.throw] at h

/-! ### Claim theorems -/

/-- C1: the set/get round trip breaks at the value `False`.  `Client.set`
serialises it as the payload `"bool:False"`; a server echoing exactly that
payload back makes `Client.get` decode it with Python `bool("False")` — the
truthiness of a non-empty string — so the call returns `True`, not the
original `False` (the other claimed values `True`, `0`, `42`, `"bar"` do
round-trip). -/
theorem c1_roundtrip_false_decodes_true :
    setPayload (PyValue.bool false) = "bool:False" ∧
    (roundTrip "foo" (PyValue.bool false)).2 = .ok (some (PyValue.bool true)) :=
  ⟨rfl, rfl⟩

/-- C2: a line whose trailing part itself contains a further `" :"` does not
parse into a Message with everything after the first `" :"` as the trailing
parameter: `parse_message` calls `s.split(' :')` without maxsplit, the
two-target unpack sees three pieces, and ValueError is raised.  On this
input the claim expects the trailing parameter `"a :b"`. -/
theorem c2_second_trailing_sep_valueerror :
    parse_message ":p PRIVMSG #c :a :b\r\n" = .error .valueError := rfl

/-- C3 counterexample: fed the scenario script — capabilities
`["metadata-2"]`, an 005 with `METADATA=1`, a PONG, then numeric 366 as the
reply to the JOIN — the handshake does not return normally: `join` fails on
its `assert m.command != '366'`, so Ready is never reached. -/
theorem c3_counterexample_366_reply_fails :
    handshake c3Script = .error .assertionError := rfl

/-- C3 amended: on that scenario the handshake reaches the end of
`authenticate` (capability list, 005 METADATA check and PONG all succeed,
leaving exactly the 366 unread) and then fails at the join step on the
end-of-names assertion, never reaching Ready. -/
theorem c3_amended_authenticate_ok_join_fails :
    authenticate c3Script
      = .ok [⟨[], some "server", "366", ["nick", "#foo", "End of /NAMES list."]⟩] ∧
    join [⟨[], some "server", "366", ["nick", "#foo", "End of /NAMES list."]⟩]
      = .error .assertionError :=
  ⟨rfl, rfl⟩

/-- C4 counterexample: the input line `" :"` (with its CRLF terminator)
parses successfully into a Message whose command is the empty string — the
empty trailing parameter is the only token and becomes the command. -/
theorem c4_counterexample_empty_command :
    parse_message " :\r\n" = .ok ⟨[], none, "", []⟩ := rfl

/-- C4 amended: whenever `parse_message` returns a Message, its command is
non-empty unless the command token was an empty trailing parameter, in
which case the message has no parameters at all (every token other than the
trailing piece survives a non-emptiness filter, and the trailing piece is
the last token). -/
theorem c4_amended_command_nonempty_or_params_nil (s : String) (m : Message)
    (h : parse_message s = .ok m) :
    m.command ≠ "" ∨ m.params = [] := by
  obtain ⟨body, toks, pfx, cmd, params, hst, htk, hex, hcmd, hparams⟩ :=
    parse_message_ok_pieces h
  have key : cmd ≠ [] ∨ params = [] := by
    rcases tokenize_ok_shape htk with ⟨w, rfl⟩ | ⟨other, trailing, heqt⟩
    · left
      rcases extractSourceCmd_ok_shape hex with heq | ⟨p0, heq⟩
      · exact ne_nil_of_mem_filter (heq ▸ List.mem_cons_self _ _)
      · exact ne_nil_of_mem_filter
          (heq ▸ List.mem_cons_of_mem _ (List.mem_cons_self _ _))
    · subst heqt
      rcases extractSourceCmd_ok_shape hex with heq | ⟨p0, heq⟩
      · cases hfl : (splitChar ' ' other).filter (fun t => !t.isEmpty) with
        | nil =>
          rw [hfl, List.nil_append] at heq
          obtain ⟨-, h2⟩ := List.cons.inj heq
          right; exact h2.symm
        | cons f fs =>
          left
          rw [hfl, List.cons_append] at heq
          obtain ⟨h1, -⟩ := List.cons.inj heq
          refine ne_nil_of_mem_filter (l := splitChar ' ' other) ?_
          rw [hfl, ← h1]
          exact List.mem_cons_self _ _
      · cases hfl : (splitChar ' ' other).filter (fun t => !t.isEmpty) with
        | nil =>
          rw [hfl, List.nil_append] at heq
          obtain ⟨-, h2⟩ := List.cons.inj heq
          exact absurd h2.symm (List.cons_ne_nil _ _)
        | cons f fs =>
          cases fs with
          | nil =>
            rw [hfl, List.cons_append, List.nil_append] at heq
            obtain ⟨-, h2⟩ := List.cons.inj heq
            obtain ⟨-, h3⟩ := List.cons.inj h2
            right; exact h3.symm
          | cons g gs =>
            left
            rw [hfl, List.cons_append, List.cons_append] at heq
            obtain ⟨-, h2⟩ := List.cons.inj heq
            obtain ⟨h3, -⟩ := List.cons.inj h2
            refine ne_nil_of_mem_filter (l := splitChar ' ' other) ?_
            rw [hfl, ← h3]
            exact List.mem_cons_of_mem _ (List.mem_cons_self _ _)
  rcases key with hc | hp
  · left
    intro he
    rw [hcmd] at he
    exact hc (congrArg String.data he)
  · right
    rw [hparams, hp]
    rfl

/-- C4 witness: the amended statement applied to the degenerate input. -/
theorem c4_witness :
    parse_message " :\r\n" = .ok ⟨[], none, "", []⟩ ∧
    ((Message.mk [] none "" []).command ≠ "" ∨ (Message.mk [] none "" []).params = []) :=
  ⟨rfl, c4_amended_command_nonempty_or_params_nil " :\r\n" ⟨[], none, "", []⟩ rfl⟩

/-- C6 counterexample: with blocking requested and the single receive timing
out, `getMessages` returns the empty list — it does not fail with
NoMessageException. -/
theorem c6_counterexample_returns_empty :
    getMessages true [RecvEvent.timeout] = .ok [] := rfl

/-- C6 amended: `getMessages(assert_get_one=True)` itself returns an empty
result when its receive loop ends with nothing parsed; the NoMessage failure
is raised one layer up, by `getMessage`, whenever the refill it requested
comes back empty. -/
theorem c6_amended_getMessage_raises_noMessage (events : List RecvEvent)
    (h : getMessages true events = .ok []) :
    getMessage [] events = .error .noMessage := by
  unfold getMessage
  rw [h]
  rfl

/-- C6 witness: the amended statement at the one-timeout script. -/
theorem c6_witness :
    getMessages true [RecvEvent.timeout] = .ok [] ∧
    getMessage [] [RecvEvent.timeout] = .error .noMessage :=
  ⟨rfl, c6_amended_getMessage_raises_noMessage [RecvEvent.timeout] rfl⟩

/-- C7: on the invalid key `"a b"` both operations fail before sending
anything, but only `Client.set` raises the MemcachedKeyCharacterError the
claim calls InvalidKey; `Client.get` fails with Python's NameError, because
line 203 names the exception class without the `self.` qualifier and no such
bare name is in scope. -/
theorem c7_invalid_key_get_raises_nameerror :
    Client.set "a b" (PyValue.str "x") [] = ([], .error .memcachedKeyCharacterError) ∧
    Client.get "a b" [] = ([], .error .nameError) :=
  ⟨rfl, rfl⟩

/-- The receive loop hits the zero-length read and raises ConnectionClosed
whatever data is already buffered, as long as the chunks before the close
kept the loop running (non-empty, not CRLF-terminated). -/
theorem recvLoop_peer_close (b : Bool) (pre : List String) (data : String)
    (h : ∀ c ∈ pre, c ≠ "" ∧ endsWithCRLF c.toList = false) :
    recvLoop b (pre.map RecvEvent.bytes ++ [RecvEvent.bytes ""]) data
      = .error .connectionClosed := by
  induction pre generalizing data with
  | nil => rfl
  | cons c cs ih =>
    obtain ⟨hne, hcr⟩ := h c (List.mem_cons_self c cs)
    have hcr' : endsWithCRLF c.data = false := hcr
    have hrest : ∀ x ∈ cs, x ≠ "" ∧ endsWithCRLF x.toList = false :=
      fun x hx => h x (List.mem_cons_of_mem c hx)
    simp only [List.map_cons, List.cons_append]
    unfold recvLoop
    rw [if_neg hne, if_neg (by simp [hcr'])]
    exact ih _ hrest

/-- C5: if the peer closes the socket (a zero-length recv) while the receive
loop is still accumulating — every chunk so far non-empty and not yet
CRLF-terminated — `getMessages` fails with ConnectionClosed, regardless of
how many bytes are already buffered and of the blocking mode. -/
theorem c5_zero_recv_connection_closed (b : Bool) (pre : List String)
    (h : ∀ c ∈ pre, c ≠ "" ∧ endsWithCRLF c.toList = false) :
    getMessages b (pre.map RecvEvent.bytes ++ [RecvEvent.bytes ""])
      = .error .connectionClosed := by
  unfold getMessages
  rw [recvLoop_peer_close b pre "" h]
  rfl

/-- C5 witness: one buffered chunk, then the peer closes. -/
theorem c5_witness :
    (∀ c ∈ ["abc"], c ≠ "" ∧ endsWithCRLF c.toList = false) ∧
    getMessages true ([RecvEvent.bytes "abc"] ++ [RecvEvent.bytes ""])
      = .error .connectionClosed :=
  ⟨by decide, c5_zero_recv_connection_closed true ["abc"] (by decide)⟩

/-- C8: a CRLF-terminated line that survives tag stripping and the trailing
split but yields no command token — either no tokens at all, or a single
token that is a source marker — makes `parse_message` fail with the
no-command-token error, the failure the spec's taxonomy calls
MalformedMessage (an IndexError at the source level). -/
theorem c8_no_command_token_malformed (s : String) (body : List Char)
    (toks : List (List Char))
    (hcr : endsWithCRLF s.toList = true)
    (hst : stripTags (s.toList.dropLast.dropLast) = .ok body)
    (htk : tokenize body = .ok toks)
    (hshape : toks = [] ∨ (toks.length = 1 ∧ startsWithChar ':' (toks.headD []) = true)) :
    parse_message s = .error .malformedMessage := by
  unfold parse_message
  rw [if_pos hcr, hst, except_bind_ok, htk, except_bind_ok]
  rcases hshape with rfl | ⟨hlen, hhd⟩
  · rfl
  · obtain ⟨t, rfl⟩ := List.length_eq_one.mp hlen
    have hhd' : startsWithChar ':' t = true := hhd
    have hx : extractSourceCmd [t] = .error .malformedMessage := by
      show (if startsWithChar ':' t = true then Except.error Err.malformedMessage
        else Except.ok (none, t, ([] : List (List Char)))) = Except.error Err.malformedMessage
      rw [if_pos hhd']
    rw [hx]
    rfl

/-- C8 witness: a line holding only a source-marker token. -/
theorem c8_witness :
    endsWithCRLF ":pfx\r\n".toList = true ∧
    parse_message ":pfx\r\n" = .error .malformedMessage :=
  ⟨rfl, c8_no_command_token_malformed ":pfx\r\n" ":pfx".toList [":pfx".toList]
    rfl rfl rfl (Or.inr ⟨rfl, rfl⟩)⟩

/-- C9: for a valid key, the one line `Client.set` sends carries the
`setTypeTag`/`pyStr` payload, and the tag is chosen by the value's runtime
type with the bool test first: a boolean is always tagged `bool` — never
`int`, although in Python it also satisfies the `int` instance test — an
integer is tagged `int`, and any other value `str`. -/
theorem c9_type_tag_dispatch (key : String) (v : PyValue) (replies : List Message)
    (h : isvalidkey key = true) :
    (Client.set key v replies).1
      = ["METADATA " ++ channel ++ " SET " ++ key ++ " :" ++ setPayload v] ∧
    setPayload v = setTypeTag v ++ ":" ++ pyStr v ∧
    (∀ b, v = PyValue.bool b →
      setTypeTag v = "bool" ∧ setTypeTag v ≠ "int" ∧ isinstance_int v = true) ∧
    (∀ n, v = PyValue.int n → setTypeTag v = "int") ∧
    (∀ t, v = PyValue.str t → setTypeTag v = "str") := by
  refine ⟨?_, rfl, ?_, ?_, ?_⟩
  · unfold Client.set
    rw [if_neg (by simp [h])]
  · rintro b rfl
    refine ⟨rfl, ?_, rfl⟩
    intro hcon
    have hbi : ("bool" : String) = "int" := hcon
    simp at hbi
  · rintro n rfl
    rfl
  · rintro t rfl
    rfl

/-- C9 witness: the dispatch at the key `"k"` and the value `True`. -/
theorem c9_witness :
    isvalidkey "k" = true ∧
    (Client.set "k" (PyValue.bool true) []).1
      = ["METADATA " ++ channel ++ " SET " ++ "k" ++ " :" ++ setPayload (PyValue.bool true)] ∧
    setPayload (PyValue.bool true)
      = setTypeTag (PyValue.bool true) ++ ":" ++ pyStr (PyValue.bool true) :=
  ⟨rfl, (c9_type_tag_dispatch "k" (PyValue.bool true) [] rfl).1,
    (c9_type_tag_dispatch "k" (PyValue.bool true) [] rfl).2.1⟩

/-- C10: when a `761` reply for the requested key carries a payload whose
first-colon split yields a type tag that is neither `bool` nor `int` —
including tags the spec never mentions — `Client.get` succeeds and returns
the raw text after that first colon unchanged, as a string value. -/
theorem c10_unknown_tag_returns_raw_string (key payload : String) (t v : List Char)
    (hk : isvalidkey key = true)
    (hsplit : splitFirstChar ':' payload.toList = [t, v])
    (hb : String.mk t ≠ "bool")
    (hi : String.mk t ≠ "int") :
    Client.get key [⟨[], some "server", "761", ["nick", key, "*", payload]⟩]
      = (["METADATA " ++ channel ++ " GET " ++ key],
         .ok (some (PyValue.str (String.mk v)))) := by
  unfold Client.get
  rw [if_neg (by simp [hk])]
  refine congrArg _ ?_
  show (do
    let (m, _rest) ← nextMsg [⟨[], some "server", "761", ["nick", key, "*", payload]⟩]
    if m.command = "766" then pure none
    else if m.command = "761" then do
      let p1 ← pyIndex m.params 1
      if p1 = key then do
        let payload ← pyIndex m.params 3
        match splitFirstChar ':' payload.toList with
        | [t, v] =>
          if String.mk t = "bool" then pure (some (.bool (pyBool v)))
          else if String.mk t = "int" then do
            let n ← pyInt (String.mk v)
            pure (some (.int n))
          else pure (some (.str (String.mk v)))
        | _ => throw Err.valueError
      else throw Err.assertionError
    else throw Err.assertionError)
    = Except.ok (some (PyValue.str (String.mk v)))
  show (if key = key then
      (match splitFirstChar ':' payload.toList with
        | [t, v] =>
          if String.mk t = "bool" then pure (some (PyValue.bool (pyBool v)))
          else if String.mk t = "int" then do
            let n ← pyInt (String.mk v)
            pure (some (PyValue.int n))
          else pure (some (PyValue.str (String.mk v)))
        | _ => throw Err.valueError : Except Err (Option PyValue))
    else throw Err.assertionError)
    = Except.ok (some (PyValue.str (String.mk v)))
  rw [if_pos rfl, hsplit]
  show (if String.mk t = "bool" then pure (some (PyValue.bool (pyBool v)))
    else if String.mk t = "int" then do
      let n ← pyInt (String.mk v)
      pure (some (PyValue.int n))
    else (pure (some (PyValue.str (String.mk v))) : Except Err (Option PyValue)))
    = Except.ok (some (PyValue.str (String.mk v)))
  rw [if_neg hb, if_neg hi]
  rfl

/-- C10 witness: the unknown tag `float`. -/
theorem c10_witness :
    isvalidkey "k" = true ∧
    splitFirstChar ':' "float:3.5".toList = ["float".toList, "3.5".toList] ∧
    Client.get "k" [⟨[], some "server", "761", ["nick", "k", "*", "float:3.5"]⟩]
      = (["METADATA " ++ channel ++ " GET " ++ "k"],
         .ok (some (PyValue.str (String.mk "3.5".toList)))) :=
  ⟨rfl, rfl,
    c10_unknown_tag_returns_raw_string "k" "float:3.5" "float".toList "3.5".toList
      rfl rfl (by decide) (by decide)⟩

end Pyrcmemcached
